import Mathlib

/-!
# Verification of `wealthsimple-prometheus` (src/main.rs)

A shallow embedding of the authentication flow of the program (`login`), its
polling loop body (`pollIteration`, the body of the `loop` in `main`),
its serde-derived JSON deserialization of the accounts response, and its
gauge updates.

Modelling conventions:
* HTTP responses are explicit values (`HttpResponse`); network transport is
  the environment.  Bodies are raw strings; the text-level JSON parser
  (the external `serde_json` reader) is abstracted as a parameter
  `jsonOf : String → Option Json` producing a parsed JSON value, while the
  value-to-struct layer generated by `#[derive(Deserialize)]` is modelled
  faithfully (`deserializeAccount`, `deserializeAccountsResponse`,
  `deserializeLoginResponse`).
* `chrono::DateTime<Utc>` parsing is external library code; it is abstracted
  as a parameter `dateOk : String → Bool` deciding which strings parse.
* `f64::from_str` is modelled by `rustParseF64`, implementing the float
  grammar of Rust (sign, inf, infinity, nan case-insensitively, or a
  decimal number with optional fraction and exponent).  Finite values are
  carried exactly as written (mantissa and power-of-ten denominator): no
  claim depends on IEEE rounding, only on parse success/failure and on which
  gauge entries are written.
* The Prometheus gauge families are maps from the label triple
  `(account_id, account_type, account_name)` to an optional value.
* a panicking abort (indexing a missing hash-map key) is a distinct
  result constructor, since it is not an error return.
-/

namespace WealthsimplePrometheus

/-- A parsed JSON value (the output of the external text-level parser). -/
inductive Json where
  | null : Json
  | bool (b : Bool) : Json
  | num (n : Int) : Json
  | str (s : String) : Json
  | arr (elems : List Json) : Json
  | obj (fields : List (String × Json)) : Json

/-- Rust enum Currency with the rename_all = UPPERCASE serde attribute. -/
inductive Currency where
  | cad | usd | eur | gbp
  deriving DecidableEq

/-- Rust enum Status with the rename_all = lowercase serde attribute. -/
inductive Status where
  | open_ | closed
  deriving DecidableEq

/-- Rust enum OwnershipType with the rename_all = lowercase serde attribute. -/
inductive OwnershipType where
  | primary | secondary
  deriving DecidableEq

/-- Rust struct Owner from src/main.rs. -/
structure Owner where
  client_id : String
  ownership_type : OwnershipType
  account_nickname : Option String
  deriving DecidableEq

/-- Rust struct Amount from src/main.rs: a numeric string plus a currency. -/
structure Amount where
  amount : String
  currency : Currency
  deriving DecidableEq

/-- Rust struct Account from src/main.rs.  The two DateTime fields are
kept as the strings they were parsed from (parsing delegated to `dateOk`). -/
structure Account where
  object : String
  id : String
  type_ : String
  nickname : Option String
  base_currency : Currency
  status : Status
  owners : List Owner
  net_liquidation : Amount
  gross_position : Amount
  total_deposits : Amount
  total_withdrawals : Amount
  withdrawn_earnings : Amount
  created_at : String
  updated_at : String
  deriving DecidableEq

/-- Rust struct AccountsResponse from src/main.rs. -/
structure AccountsResponse where
  object : String
  offset : Int
  total_count : Int
  results : List Account
  deriving DecidableEq

/-! ## serde-style deserialization of JSON values

`#[derive(Deserialize)]` on a struct requires every non-`Option` field to be
present with a value of the right shape, lets an `Option` field default to
`None` when absent (or `null`), ignores unknown fields (no
`deny_unknown_fields`), and rejects a duplicated known field. -/

/-- serde rejects an object in which a known field name occurs twice. -/
def dupKnownField (fields : List (String × Json)) (names : List String) : Bool :=
  names.any (fun n => 2 ≤ (fields.filter (fun p => p.1 == n)).length)

/-- Deserialize a required field through `f`; absence is failure. -/
def reqField (f : Json → Option α) (fields : List (String × Json)) (k : String) :
    Option α :=
  (fields.lookup k).bind f

/-- A JSON string (`&str` borrows reject every other shape). -/
def jStr : Json → Option String
  | .str s => some s
  | _ => none

/-- A JSON integer (for the `i64` fields). -/
def jInt : Json → Option Int
  | .num n => some n
  | _ => none

/-- An `Option<&str>` field that is present: `null` is `None`. -/
def jOptStr : Json → Option (Option String)
  | .null => some none
  | .str s => some (some s)
  | _ => none

/-- An `Option<&str>` field: absent means `None` (serde default for `Option`). -/
def optStrField (fields : List (String × Json)) (k : String) :
    Option (Option String) :=
  match fields.lookup k with
  | none => some none
  | some j => jOptStr j

/-- A `DateTime<Utc>` field: a string accepted by the external date parser. -/
def jDate (dateOk : String → Bool) : Json → Option String
  | .str s => if dateOk s then some s else none
  | _ => none

/-- Deserializer for `Currency`: exactly the four uppercase codes. -/
def deserializeCurrency : Json → Option Currency
  | .str s =>
    if s = "CAD" then some .cad
    else if s = "USD" then some .usd
    else if s = "EUR" then some .eur
    else if s = "GBP" then some .gbp
    else none
  | _ => none

/-- Deserializer for `Status`: exactly the two lowercase names. -/
def deserializeStatus : Json → Option Status
  | .str s =>
    if s = "open" then some .open_
    else if s = "closed" then some .closed
    else none
  | _ => none

/-- Deserializer for `OwnershipType`: exactly the two lowercase names. -/
def deserializeOwnershipType : Json → Option OwnershipType
  | .str s =>
    if s = "primary" then some .primary
    else if s = "secondary" then some .secondary
    else none
  | _ => none

/-- The known field names of `Owner`. -/
def ownerFieldNames : List String :=
  ["client_id", "ownership_type", "account_nickname"]

/-- Deserialize one `Owner` object. -/
def deserializeOwner : Json → Option Owner
  | .obj fields =>
    if dupKnownField fields ownerFieldNames then none
    else
      match reqField jStr fields "client_id",
            reqField deserializeOwnershipType fields "ownership_type",
            optStrField fields "account_nickname" with
      | some cid, some ot, some an => some ⟨cid, ot, an⟩
      | _, _, _ => none
  | _ => none

/-- A JSON array deserialized elementwise through `f` (for `Vec<T>`). -/
def jArrWith (f : Json → Option α) : Json → Option (List α)
  | .arr xs => xs.mapM f
  | _ => none

/-- The known field names of `Amount`. -/
def amountFieldNames : List String := ["amount", "currency"]

/-- Deserialize one `Amount` object. -/
def deserializeAmount : Json → Option Amount
  | .obj fields =>
    if dupKnownField fields amountFieldNames then none
    else
      match reqField jStr fields "amount",
            reqField deserializeCurrency fields "currency" with
      | some a, some c => some ⟨a, c⟩
      | _, _ => none
  | _ => none

/-- The known field names of `Account` (`type_` is renamed to `"type"`). -/
def accountFieldNames : List String :=
  ["object", "id", "type", "nickname", "base_currency", "status", "owners",
   "net_liquidation", "gross_position", "total_deposits", "total_withdrawals",
   "withdrawn_earnings", "created_at", "updated_at"]

/-- Deserialize one `Account` object: every field except the `Option`-typed
`nickname` is required. -/
def deserializeAccount (dateOk : String → Bool) : Json → Option Account
  | .obj fields =>
    if dupKnownField fields accountFieldNames then none
    else
      match reqField jStr fields "object",
            reqField jStr fields "id",
            reqField jStr fields "type",
            optStrField fields "nickname",
            reqField deserializeCurrency fields "base_currency",
            reqField deserializeStatus fields "status",
            reqField (jArrWith deserializeOwner) fields "owners",
            reqField deserializeAmount fields "net_liquidation",
            reqField deserializeAmount fields "gross_position",
            reqField deserializeAmount fields "total_deposits",
            reqField deserializeAmount fields "total_withdrawals",
            reqField deserializeAmount fields "withdrawn_earnings",
            reqField (jDate dateOk) fields "created_at",
            reqField (jDate dateOk) fields "updated_at" with
      | some ob, some i, some ty, some ni, some bc, some st, some ow,
        some nl, some gp, some td, some tw, some we, some ca, some ua =>
          some ⟨ob, i, ty, ni, bc, st, ow, nl, gp, td, tw, we, ca, ua⟩
      | _, _, _, _, _, _, _, _, _, _, _, _, _, _ => none
  | _ => none

/-- The known field names of `AccountsResponse`. -/
def accountsResponseFieldNames : List String :=
  ["object", "offset", "total_count", "results"]

/-- Deserialize the whole accounts response (`resp.json()` in `main`). -/
def deserializeAccountsResponse (dateOk : String → Bool) :
    Json → Option AccountsResponse
  | .obj fields =>
    if dupKnownField fields accountsResponseFieldNames then none
    else
      match reqField jStr fields "object",
            reqField jInt fields "offset",
            reqField jInt fields "total_count",
            reqField (jArrWith (deserializeAccount dateOk)) fields "results" with
      | some ob, some off, some tc, some rs => some ⟨ob, off, tc, rs⟩
      | _, _, _, _ => none
  | _ => none

/-- Deserializer for Rust struct LoginResponse, whose single field is
access_token: only that field is required, everything else is ignored. -/
def deserializeLoginResponse : Json → Option String
  | .obj fields =>
    if dupKnownField fields ["access_token"] then none
    else reqField jStr fields "access_token"
  | _ => none

/-! ## `f64::from_str`

The float grammar of Rust accepts an optional sign followed by one of inf,
infinity, nan (the words matched case-insensitively) or a number, where a
number is digits with an optional fraction (digits required on at least one
side of the point) and an optional exponent: the letter e or E, an optional
sign, and digits.  Parsing never fails on range, so success
is decided purely by this grammar; finite values are carried exactly. -/

/-- A parsed `f64`.  A finite value is kept exactly as the decimal
`num / 10 ^ den10` it was written as; no claim depends on IEEE rounding or
on identifying distinct decimal spellings of the same real. -/
inductive F64 where
  | finite (num : Int) (den10 : Nat) : F64
  | inf (neg : Bool) : F64
  | nan : F64
  deriving DecidableEq

/-- Numeric value of a digit string (most significant first). -/
def digitsToNat (ds : List Char) : Nat :=
  ds.foldl (fun a c => a * 10 + (c.toNat - '0'.toNat)) 0

/-- Split off a maximal run of leading ASCII digits. -/
def takeDigits : List Char → List Char × List Char
  | [] => ([], [])
  | c :: cs =>
    if c.isDigit then
      let (d, r) := takeDigits cs
      (c :: d, r)
    else ([], c :: cs)

/-- Finish a number: mantissa from integer and fraction digits, then an
optional exponent which must consume the rest of the input.  The result is
the pair of a mantissa and a power-of-ten denominator exponent. -/
def finishNumber (ip fp : List Char) (r : List Char) : Option (Int × Nat) :=
  let mant : Int := (digitsToNat (ip ++ fp) : Int)
  let den10 : Nat := fp.length
  match r with
  | [] => some (mant, den10)
  | e :: r2 =>
    if e = 'e' ∨ e = 'E' then
      let (eneg, r3) : Bool × List Char :=
        match r2 with
        | '+' :: t => (false, t)
        | '-' :: t => (true, t)
        | t => (false, t)
      let (ed, r4) := takeDigits r3
      if ed.isEmpty ∨ ¬ r4.isEmpty then none
      else
        let ev := digitsToNat ed
        if eneg then some (mant, den10 + ev)
        else some (mant * (10 : Int) ^ ev, den10)
    else none

/-- Parse the unsigned `Number` alternative. -/
def parseNumber (s : List Char) : Option (Int × Nat) :=
  let (ip, r1) := takeDigits s
  match r1 with
  | '.' :: r2 =>
    let (fp, r3) := takeDigits r2
    if ip.isEmpty ∧ fp.isEmpty then none
    else finishNumber ip fp r3
  | r => if ip.isEmpty then none else finishNumber ip [] r

/-- The model of `f64::from_str`. -/
def rustParseF64 (s : String) : Option F64 :=
  let cs := s.toList
  let (neg, rest) : Bool × List Char :=
    match cs with
    | '+' :: t => (false, t)
    | '-' :: t => (true, t)
    | t => (false, t)
  let low := rest.map Char.toLower
  if low = "inf".toList ∨ low = "infinity".toList then some (.inf neg)
  else if low = "nan".toList then some .nan
  else
    match parseNumber rest with
    | some (m, d) => some (.finite (if neg then -m else m) d)
    | none => none

/-! ## The gauge families

Four independent `GaugeVec`s, each keyed by the label triple
`(account_id, account_type, account_name)`.  `set` overwrites the value for
exactly that key; untouched keys keep whatever they held. -/

/-- The label triple `(account_id, account_type, account_name)`. -/
abbrev Labels := String × String × String

/-- One gauge family: latest value per label triple, absent if never set. -/
abbrev GaugeFamily := Labels → Option F64

/-- Model of setting one labelled gauge: with_label_values(k).set(v). -/
def setGauge (m : GaugeFamily) (k : Labels) (v : F64) : GaugeFamily :=
  fun k2 => if k2 = k then some v else m k2

/-- The four registered gauge families of src/main.rs. -/
structure Gauges where
  deposited : GaugeFamily
  withdrawn : GaugeFamily
  net_liquidation : GaugeFamily
  gross_position : GaugeFamily

/-- The registry before any poll cycle. -/
def emptyGauges : Gauges :=
  ⟨fun _ => none, fun _ => none, fun _ => none, fun _ => none⟩

/-- The label triple: account id, account type, nickname or empty string. -/
def labelValues (a : Account) : Labels :=
  (a.id, a.type_, a.nickname.getD "")

/-- The body of the per-account loop in `main`: each of the four amount
strings is parsed independently, and only a successful parse writes the
corresponding gauge. -/
def processAccount (g : Gauges) (a : Account) : Gauges :=
  let k := labelValues a
  let g1 :=
    match rustParseF64 a.total_deposits.amount with
    | some v => { g with deposited := setGauge g.deposited k v }
    | none => g
  let g2 :=
    match rustParseF64 a.total_withdrawals.amount with
    | some v => { g1 with withdrawn := setGauge g1.withdrawn k v }
    | none => g1
  let g3 :=
    match rustParseF64 a.net_liquidation.amount with
    | some v => { g2 with net_liquidation := setGauge g2.net_liquidation k v }
    | none => g2
  match rustParseF64 a.gross_position.amount with
  | some v => { g3 with gross_position := setGauge g3.gross_position k v }
  | none => g3

/-- The per-account loop over accounts.results in `main`. -/
def processAccounts (g : Gauges) (accs : List Account) : Gauges :=
  accs.foldl processAccount g

/-! ## The login flow (`fn login`) -/

/-- An HTTP response as the program sees it: status, headers (minreq keeps
them in a map with lowercased names; modelled as an association list without
duplicate keys), and the raw body text. -/
structure HttpResponse where
  status_code : Nat
  headers : List (String × String)
  body : String

/-- The environment of one `login` call: the response to the first request,
what the user types at the `2FA code:` prompt, and the response to the retry
request (consulted only if the retry is sent). -/
structure LoginEnv where
  resp1 : HttpResponse
  otpCode : String
  resp2 : HttpResponse

/-- The observable effects of a `login` call, in order. -/
inductive LoginEffect where
  | request (headers : List (String × String)) (payload : List (String × String))
  | promptOtp
  deriving DecidableEq

/-- How a `login` call ends.  `panicMissingClaimHeader` models the abort from
indexing `resp.headers["x-wealthsimple-otp-claim"]` on a map without that
key: the process dies, no value is returned. -/
inductive LoginResult where
  | ok (token : String)
  | jsonError
  | authFailedAfterOtp (body : String)
  | authFailed (headers : List (String × String)) (body : String)
  | panicMissingClaimHeader
  deriving DecidableEq

/-- The fixed JSON login payload (a map in the source; insertion order kept). -/
def loginPayload (username password : String) : List (String × String) :=
  [("username", username),
   ("password", password),
   ("scope", "invest.read mfda.read mercer.read trade.read"),
   ("grant_type", "password"),
   ("client_id",
    "4da53ac2b03225bed1550eba8e4611e086c7b905a3855e6ed12ea08c246758fa")]

/-- Headers every login request carries. -/
def baseLoginHeaders : List (String × String) :=
  [("Accept", "application/json"), ("User-Agent", "curl/7.64.1")]

/-- Headers of the first login request: the cached OTP claim is attached
when present. -/
def loginHeadersFirst : Option String → List (String × String)
  | some claim => baseLoginHeaders ++ [("x-wealthsimple-otp-claim", claim)]
  | none => baseLoginHeaders

/-- Headers of the OTP retry request: the code and the device id. -/
def otpRetryHeaders (otp id : String) : List (String × String) :=
  baseLoginHeaders ++
    [("x-wealthsimple-otp", otp ++ ";remember=true"), ("x-ws-device-id", id)]

/-- The guard on the 401 match arm:
`headers.get("x-wealthsimple-otp").map(|s| s == "required; method=app").unwrap_or(false)`. -/
def otpChallengeRequired (resp : HttpResponse) : Bool :=
  ((resp.headers.lookup "x-wealthsimple-otp").map
    (fun s => s == "required; method=app")).getD false

/-- Model of fn login from src/main.rs.  Returns how the call ended, the value of
the `otp_claim` cell afterwards, and the ordered effects (requests sent and
prompts shown).  Note that on the OTP retry the claim cell is overwritten
from the response header before the body is parsed. -/
def login (jsonOf : String → Option Json) (id username password : String)
    (otp_claim : Option String) (env : LoginEnv) :
    LoginResult × Option String × List LoginEffect :=
  let payload := loginPayload username password
  let headers1 := loginHeadersFirst otp_claim
  let resp := env.resp1
  if resp.status_code = 401 ∧ otpChallengeRequired resp = true then
    let otp := env.otpCode
    let resp2 := env.resp2
    let effects := [.request headers1 payload, .promptOtp,
                    .request (otpRetryHeaders otp id) payload]
    if resp2.status_code = 200 then
      match resp2.headers.lookup "x-wealthsimple-otp-claim" with
      | none => (.panicMissingClaimHeader, otp_claim, effects)
      | some claim =>
        match (jsonOf resp2.body).bind deserializeLoginResponse with
        | some tok => (.ok ("Bearer " ++ tok), some claim, effects)
        | none => (.jsonError, some claim, effects)
    else (.authFailedAfterOtp resp2.body, otp_claim, effects)
  else if resp.status_code = 200 then
    match (jsonOf resp.body).bind deserializeLoginResponse with
    | some tok => (.ok ("Bearer " ++ tok), otp_claim, [.request headers1 payload])
    | none => (.jsonError, otp_claim, [.request headers1 payload])
  else
    (.authFailed resp.headers resp.body, otp_claim, [.request headers1 payload])

/-! ## The poll loop (`loop` in `main`) -/

/-- The observable effects of one loop iteration, in order. -/
inductive MainEffect where
  | accountsRequest (authHeader : String)
  | loginCall (effects : List LoginEffect)
  | sleepSeconds (n : Nat)
  deriving DecidableEq

/-- An error that escapes `main` through `?` or `return Err`, killing the
process. -/
inductive MainError where
  | loginError (e : LoginResult)
  | requestFailed (msg : String)
  | accountsJsonError
  deriving DecidableEq

/-- How one iteration of the loop ends:
`continueWith` is the `continue` after a successful re-login (the next cycle
starts immediately, no sleep); `exitWith` is an error escaping `main` (the
process terminates); `panicAbort` is a panic inside `login`;
`sleepThenNext` is the normal path: gauges updated, then the 300 s sleep. -/
inductive IterOutcome where
  | continueWith (token : String) (otp_claim : Option String)
  | exitWith (e : MainError)
  | panicAbort
  | sleepThenNext (gauges : Gauges)

/-- The environment of one iteration: the accounts response and, should a
re-login be needed, its environment. -/
structure PollEnv where
  accountsResp : HttpResponse
  loginEnv : LoginEnv

/-- True for the two `Err` constructions of `login` (`AuthenticationFailed`
in the error taxonomy of the spec). -/
def isAuthFailure : LoginResult → Bool
  | .authFailed _ _ => true
  | .authFailedAfterOtp _ => true
  | _ => false

/-- One iteration of the `loop` in `main`: send the accounts request; on 401
re-login and `continue` (skipping the sleep); on any other non-200 return an
error (killing the process); on 200 deserialize, update the gauges from each
account, and sleep 300 seconds. -/
def pollIteration (jsonOf : String → Option Json) (dateOk : String → Bool)
    (id username password token : String) (otp_claim : Option String)
    (gauges : Gauges) (env : PollEnv) : List MainEffect × IterOutcome :=
  let resp := env.accountsResp
  if resp.status_code = 401 then
    match login jsonOf id username password otp_claim env.loginEnv with
    | (.ok tok, claim, effs) =>
      ([.accountsRequest token, .loginCall effs], .continueWith tok claim)
    | (.panicMissingClaimHeader, _, effs) =>
      ([.accountsRequest token, .loginCall effs], .panicAbort)
    | (e, _, effs) =>
      ([.accountsRequest token, .loginCall effs], .exitWith (.loginError e))
  else if resp.status_code ≠ 200 then
    ([.accountsRequest token],
     .exitWith (.requestFailed ("Request failed: " ++ resp.body)))
  else
    match (jsonOf resp.body).bind (deserializeAccountsResponse dateOk) with
    | none => ([.accountsRequest token], .exitWith .accountsJsonError)
    | some ar =>
      ([.accountsRequest token, .sleepSeconds 300],
       .sleepThenNext (processAccounts gauges ar.results))

/-! ## Theorems -/

/-- Every `login` call sends, first, a request whose headers are the base
headers plus the cached claim (when present) and whose payload is the fixed
login payload. -/
theorem login_first_effect (jsonOf : String → Option Json)
    (id username password : String) (otp_claim : Option String)
    (env : LoginEnv) :
    (login jsonOf id username password otp_claim env).2.2.head? =
      some (.request (loginHeadersFirst otp_claim)
        (loginPayload username password)) := by
  simp only [login]
  split
  · split
    · split
      · rfl
      · split <;> rfl
    · rfl
  · split
    · split <;> rfl
    · rfl

/-- C1: a first login response with status 200 makes `authenticate` return
the bearer credential `"Bearer " ++ access_token` from the response body,
leave the cached OTP claim unchanged, and send exactly the one login
request. -/
theorem c1_first_attempt_success (jsonOf : String → Option Json)
    (id username password : String) (otp_claim : Option String)
    (env : LoginEnv) (tok : String)
    (hstatus : env.resp1.status_code = 200)
    (hbody : (jsonOf env.resp1.body).bind deserializeLoginResponse = some tok) :
    login jsonOf id username password otp_claim env =
      (.ok ("Bearer " ++ tok), otp_claim,
       [.request (loginHeadersFirst otp_claim)
         (loginPayload username password)]) := by
  simp only [login]
  rw [hstatus, hbody]
  simp

/-- Witness for C1 at a concrete environment. -/
theorem c1_first_attempt_success_witness :
    ({ resp1 := { status_code := 200, headers := [], body := "b" },
       otpCode := "x",
       resp2 := { status_code := 0, headers := [], body := "" } } :
        LoginEnv).resp1.status_code = 200 ∧
    (((fun _ => some (.obj [("access_token", .str "tok123")])) :
        String → Option Json) "b").bind deserializeLoginResponse =
      some "tok123" ∧
    login (fun _ => some (.obj [("access_token", .str "tok123")]))
        "dev" "u" "p" none
        { resp1 := { status_code := 200, headers := [], body := "b" },
          otpCode := "x",
          resp2 := { status_code := 0, headers := [], body := "" } } =
      (.ok ("Bearer " ++ "tok123"), none,
       [.request (loginHeadersFirst none) (loginPayload "u" "p")]) :=
  ⟨rfl, by decide,
   c1_first_attempt_success _ "dev" "u" "p" none _ "tok123" rfl (by decide)⟩

/-- C2: a first login response with status 401 carrying
`x-wealthsimple-otp: required; method=app` makes `authenticate` prompt for a
one-time code exactly once and send exactly one additional login request,
with the same payload and the OTP code and device-id headers. -/
theorem c2_otp_challenge_effects (jsonOf : String → Option Json)
    (id username password : String) (otp_claim : Option String)
    (env : LoginEnv)
    (hstatus : env.resp1.status_code = 401)
    (hheader : env.resp1.headers.lookup "x-wealthsimple-otp" =
      some "required; method=app") :
    (login jsonOf id username password otp_claim env).2.2 =
      [.request (loginHeadersFirst otp_claim) (loginPayload username password),
       .promptOtp,
       .request (otpRetryHeaders env.otpCode id)
         (loginPayload username password)] := by
  simp only [login]
  rw [if_pos ⟨hstatus, by simp [otpChallengeRequired, hheader]⟩]
  split
  · split
    · rfl
    · split <;> rfl
  · rfl

/-- Witness for C2 at a concrete environment. -/
theorem c2_otp_challenge_effects_witness :
    ({ resp1 := { status_code := 401,
                  headers := [("x-wealthsimple-otp", "required; method=app")],
                  body := "" },
       otpCode := "123456",
       resp2 := { status_code := 500, headers := [], body := "no" } } :
        LoginEnv).resp1.status_code = 401 ∧
    ({ resp1 := { status_code := 401,
                  headers := [("x-wealthsimple-otp", "required; method=app")],
                  body := "" },
       otpCode := "123456",
       resp2 := { status_code := 500, headers := [], body := "no" } } :
        LoginEnv).resp1.headers.lookup "x-wealthsimple-otp" =
      some "required; method=app" ∧
    (login (fun _ => none) "dev" "u" "p" none
      { resp1 := { status_code := 401,
                   headers := [("x-wealthsimple-otp", "required; method=app")],
                   body := "" },
        otpCode := "123456",
        resp2 := { status_code := 500, headers := [], body := "no" } }).2.2 =
      [.request (loginHeadersFirst none) (loginPayload "u" "p"),
       .promptOtp,
       .request (otpRetryHeaders "123456" "dev") (loginPayload "u" "p")] :=
  ⟨rfl, by decide,
   c2_otp_challenge_effects (fun _ => none) "dev" "u" "p" none _ rfl (by decide)⟩

/-- C3: when the OTP retry response has status 200, `authenticate` returns
the bearer token from its body together with the new OTP bypass claim from
its `x-wealthsimple-otp-claim` header, and any subsequent login attempt made
with that cached claim attaches it to its first request. -/
theorem c3_otp_retry_success (jsonOf : String → Option Json)
    (id username password : String) (otp_claim : Option String)
    (env : LoginEnv) (tok c : String)
    (hstatus : env.resp1.status_code = 401)
    (hheader : env.resp1.headers.lookup "x-wealthsimple-otp" =
      some "required; method=app")
    (hstatus2 : env.resp2.status_code = 200)
    (hclaim : env.resp2.headers.lookup "x-wealthsimple-otp-claim" = some c)
    (hbody : (jsonOf env.resp2.body).bind deserializeLoginResponse = some tok) :
    login jsonOf id username password otp_claim env =
      (.ok ("Bearer " ++ tok), some c,
       [.request (loginHeadersFirst otp_claim) (loginPayload username password),
        .promptOtp,
        .request (otpRetryHeaders env.otpCode id)
          (loginPayload username password)]) ∧
    ∀ env2 : LoginEnv,
      (login jsonOf id username password (some c) env2).2.2.head? =
        some (.request (baseLoginHeaders ++ [("x-wealthsimple-otp-claim", c)])
          (loginPayload username password)) := by
  constructor
  · simp only [login]
    rw [hstatus, hstatus2, hclaim, hbody]
    simp [otpChallengeRequired, hheader]
  · intro env2
    rw [login_first_effect]
    rfl

/-- Witness for C3 at a concrete environment. -/
theorem c3_otp_retry_success_witness :
    (login (fun _ => some (.obj [("access_token", .str "tok123")]))
        "dev" "u" "p" none
        { resp1 := { status_code := 401,
                     headers := [("x-wealthsimple-otp", "required; method=app")],
                     body := "" },
          otpCode := "123456",
          resp2 := { status_code := 200,
                     headers := [("x-wealthsimple-otp-claim", "claimX")],
                     body := "b" } } =
      (.ok ("Bearer " ++ "tok123"), some "claimX",
       [.request (loginHeadersFirst none) (loginPayload "u" "p"),
        .promptOtp,
        .request (otpRetryHeaders "123456" "dev") (loginPayload "u" "p")])) ∧
    (login (fun _ => some (.obj [("access_token", .str "tok123")]))
        "dev" "u" "p" (some "claimX")
        { resp1 := { status_code := 200, headers := [], body := "b" },
          otpCode := "", resp2 := { status_code := 0, headers := [], body := "" } }).2.2.head? =
      some (.request (baseLoginHeaders ++ [("x-wealthsimple-otp-claim", "claimX")])
        (loginPayload "u" "p")) := by
  have h := c3_otp_retry_success
    (fun _ => some (.obj [("access_token", .str "tok123")]))
    "dev" "u" "p" none
    { resp1 := { status_code := 401,
                 headers := [("x-wealthsimple-otp", "required; method=app")],
                 body := "" },
      otpCode := "123456",
      resp2 := { status_code := 200,
                 headers := [("x-wealthsimple-otp-claim", "claimX")],
                 body := "b" } }
    "tok123" "claimX" rfl (by decide) rfl (by decide) (by decide)
  exact ⟨h.1, h.2 _⟩

/-- C4: a first login response with status 401 that does not carry the
app-OTP-required header value makes `authenticate` fail with the
`AuthenticationFailed` error (carrying the response headers and body) after
the single request, never prompting for a one-time code. -/
theorem c4_unauthorized_no_challenge (jsonOf : String → Option Json)
    (id username password : String) (otp_claim : Option String)
    (env : LoginEnv)
    (hstatus : env.resp1.status_code = 401)
    (hheader : otpChallengeRequired env.resp1 = false) :
    login jsonOf id username password otp_claim env =
      (.authFailed env.resp1.headers env.resp1.body, otp_claim,
       [.request (loginHeadersFirst otp_claim)
         (loginPayload username password)]) := by
  simp only [login]
  rw [hstatus, hheader]
  simp

/-- Witness for C4 at a concrete environment. -/
theorem c4_unauthorized_no_challenge_witness :
    ({ resp1 := { status_code := 401, headers := [("server", "x")], body := "denied" },
       otpCode := "", resp2 := { status_code := 0, headers := [], body := "" } } :
        LoginEnv).resp1.status_code = 401 ∧
    otpChallengeRequired
      ({ resp1 := { status_code := 401, headers := [("server", "x")], body := "denied" },
         otpCode := "", resp2 := { status_code := 0, headers := [], body := "" } } :
          LoginEnv).resp1 = false ∧
    login (fun _ => none) "dev" "u" "p" none
        { resp1 := { status_code := 401, headers := [("server", "x")], body := "denied" },
          otpCode := "", resp2 := { status_code := 0, headers := [], body := "" } } =
      (.authFailed [("server", "x")] "denied", none,
       [.request (loginHeadersFirst none) (loginPayload "u" "p")]) :=
  ⟨rfl, by decide,
   c4_unauthorized_no_challenge (fun _ => none) "dev" "u" "p" none _ rfl (by decide)⟩

/-- Each loop iteration has as first effect the accounts request carrying the
current bearer credential. -/
theorem pollIteration_first_effect (jsonOf : String → Option Json)
    (dateOk : String → Bool) (id username password token : String)
    (otp_claim : Option String) (g : Gauges) (env : PollEnv) :
    (pollIteration jsonOf dateOk id username password token otp_claim
      g env).1.head? = some (.accountsRequest token) := by
  simp only [pollIteration]
  split
  · split <;> rfl
  · split
    · rfl
    · split <;> rfl

/-- C5: a 401 from the accounts request makes the loop invoke `login`
exactly once and `continue`: the effects of the iteration are the request and the
single login call, with no sleep anywhere, and the next iteration starts
immediately with the accounts request under the new credential. -/
theorem c5_reauth_on_401 (jsonOf : String → Option Json)
    (dateOk : String → Bool) (id username password token : String)
    (otp_claim : Option String) (g : Gauges) (env : PollEnv)
    (tok : String) (claim2 : Option String) (effs : List LoginEffect)
    (h401 : env.accountsResp.status_code = 401)
    (hlogin : login jsonOf id username password otp_claim env.loginEnv =
      (.ok tok, claim2, effs)) :
    pollIteration jsonOf dateOk id username password token otp_claim g env =
      ([.accountsRequest token, .loginCall effs], .continueWith tok claim2) ∧
    (∀ n, MainEffect.sleepSeconds n ∉
      (pollIteration jsonOf dateOk id username password token otp_claim
        g env).1) ∧
    (∀ g2 env2,
      (pollIteration jsonOf dateOk id username password tok claim2
        g2 env2).1.head? = some (.accountsRequest tok)) := by
  have hmain :
      pollIteration jsonOf dateOk id username password token otp_claim g env =
        ([.accountsRequest token, .loginCall effs],
         .continueWith tok claim2) := by
    simp only [pollIteration]
    rw [if_pos h401, hlogin]
  refine ⟨hmain, ?_, ?_⟩
  · intro n
    rw [hmain]
    simp
  · intro g2 env2
    exact pollIteration_first_effect jsonOf dateOk id username password tok
      claim2 g2 env2

/-- Witness for C5 at a concrete environment. -/
theorem c5_reauth_on_401_witness :
    ({ accountsResp := { status_code := 401, headers := [], body := "expired" },
       loginEnv := { resp1 := { status_code := 200, headers := [], body := "b" },
                     otpCode := "",
                     resp2 := { status_code := 0, headers := [], body := "" } } } :
        PollEnv).accountsResp.status_code = 401 ∧
    login (fun _ => some (.obj [("access_token", .str "tok2")])) "dev" "u" "p" none
        ({ accountsResp := { status_code := 401, headers := [], body := "expired" },
           loginEnv := { resp1 := { status_code := 200, headers := [], body := "b" },
                         otpCode := "",
                         resp2 := { status_code := 0, headers := [], body := "" } } } :
            PollEnv).loginEnv =
      (.ok "Bearer tok2", none,
       [.request (loginHeadersFirst none) (loginPayload "u" "p")]) ∧
    pollIteration (fun _ => some (.obj [("access_token", .str "tok2")]))
        (fun _ => true) "dev" "u" "p" "Bearer tok1" none emptyGauges
        { accountsResp := { status_code := 401, headers := [], body := "expired" },
          loginEnv := { resp1 := { status_code := 200, headers := [], body := "b" },
                        otpCode := "",
                        resp2 := { status_code := 0, headers := [], body := "" } } } =
      ([.accountsRequest "Bearer tok1",
        .loginCall [.request (loginHeadersFirst none) (loginPayload "u" "p")]],
       .continueWith "Bearer tok2" none) :=
  ⟨rfl, by rfl,
   (c5_reauth_on_401 _ _ "dev" "u" "p" "Bearer tok1" none emptyGauges _
      "Bearer tok2" none _ rfl (by rfl)).1⟩

/-- C6 counterexample: at this concrete input the accounts request returns
401, the re-login fails with the `AuthenticationFailed` error, and the
iteration ends with that error escaping `main` — the process exits, and no
further (interactive) re-login happens: the effects show exactly one login
call. -/
theorem c6_counterexample :
    pollIteration (fun _ => none) (fun _ => true) "dev" "u" "p" "Bearer old"
        none emptyGauges
        { accountsResp := { status_code := 401, headers := [], body := "expired" },
          loginEnv := { resp1 := { status_code := 500, headers := [], body := "down" },
                        otpCode := "",
                        resp2 := { status_code := 0, headers := [], body := "" } } } =
      ([.accountsRequest "Bearer old",
        .loginCall [.request (loginHeadersFirst none) (loginPayload "u" "p")]],
       .exitWith (.loginError (.authFailed [] "down"))) := by
  rfl

/-- C6 (amended): when the re-login performed after a mid-loop 401 fails
with an `AuthenticationFailed` error, that error escapes `main` through `?`
and the process exits; no further re-login is attempted in that iteration. -/
theorem c6_amended_reauth_failure_exits (jsonOf : String → Option Json)
    (dateOk : String → Bool) (id username password token : String)
    (otp_claim : Option String) (g : Gauges) (env : PollEnv)
    (r : LoginResult) (claim2 : Option String) (effs : List LoginEffect)
    (h401 : env.accountsResp.status_code = 401)
    (hlogin : login jsonOf id username password otp_claim env.loginEnv =
      (r, claim2, effs))
    (hfail : isAuthFailure r = true) :
    pollIteration jsonOf dateOk id username password token otp_claim g env =
      ([.accountsRequest token, .loginCall effs],
       .exitWith (.loginError r)) := by
  simp only [pollIteration]
  rw [if_pos h401, hlogin]
  cases r <;> simp_all [isAuthFailure]

/-- Witness for the amended C6 at a concrete environment. -/
theorem c6_amended_reauth_failure_exits_witness :
    isAuthFailure (.authFailed [] "down") = true ∧
    pollIteration (fun _ => none) (fun _ => true) "dev" "u" "p" "Bearer old"
        none emptyGauges
        { accountsResp := { status_code := 401, headers := [], body := "expired" },
          loginEnv := { resp1 := { status_code := 500, headers := [], body := "down" },
                        otpCode := "",
                        resp2 := { status_code := 0, headers := [], body := "" } } } =
      ([.accountsRequest "Bearer old",
        .loginCall [.request (loginHeadersFirst none) (loginPayload "u" "p")]],
       .exitWith (.loginError (.authFailed [] "down"))) :=
  ⟨by decide,
   c6_amended_reauth_failure_exits _ _ "dev" "u" "p" "Bearer old" none
     emptyGauges _ (.authFailed [] "down") none
     [.request (loginHeadersFirst none) (loginPayload "u" "p")]
     rfl (by rfl) (by decide)⟩

/-- C8: an accounts response with a status other than 200 and 401 makes the
iteration return the `Request failed` error carrying the response body; the
error escapes `main`, so the process terminates, and no login call and no
retry happen (the single request is the only effect). -/
theorem c8_unexpected_status_fatal (jsonOf : String → Option Json)
    (dateOk : String → Bool) (id username password token : String)
    (otp_claim : Option String) (g : Gauges) (env : PollEnv)
    (h401 : env.accountsResp.status_code ≠ 401)
    (h200 : env.accountsResp.status_code ≠ 200) :
    pollIteration jsonOf dateOk id username password token otp_claim g env =
      ([.accountsRequest token],
       .exitWith (.requestFailed
         ("Request failed: " ++ env.accountsResp.body))) := by
  simp only [pollIteration]
  rw [if_neg h401, if_pos h200]

/-- Witness for C8 at a concrete environment. -/
theorem c8_unexpected_status_fatal_witness :
    ({ accountsResp := { status_code := 500, headers := [], body := "oops" },
       loginEnv := { resp1 := { status_code := 0, headers := [], body := "" },
                     otpCode := "",
                     resp2 := { status_code := 0, headers := [], body := "" } } } :
        PollEnv).accountsResp.status_code ≠ 401 ∧
    ({ accountsResp := { status_code := 500, headers := [], body := "oops" },
       loginEnv := { resp1 := { status_code := 0, headers := [], body := "" },
                     otpCode := "",
                     resp2 := { status_code := 0, headers := [], body := "" } } } :
        PollEnv).accountsResp.status_code ≠ 200 ∧
    pollIteration (fun _ => none) (fun _ => true) "dev" "u" "p" "Bearer t"
        none emptyGauges
        { accountsResp := { status_code := 500, headers := [], body := "oops" },
          loginEnv := { resp1 := { status_code := 0, headers := [], body := "" },
                        otpCode := "",
                        resp2 := { status_code := 0, headers := [], body := "" } } } =
      ([.accountsRequest "Bearer t"],
       .exitWith (.requestFailed ("Request failed: " ++ "oops"))) :=
  ⟨by decide, by decide,
   c8_unexpected_status_fatal _ _ "dev" "u" "p" "Bearer t" none emptyGauges _
     (by decide) (by decide)⟩

/-- C9: in the OTP-retry path, a 200 retry response without the
`x-wealthsimple-otp-claim` header makes `login` abort (the header map is
indexed directly), not return an error value; the `Failed to log in after
2fa` error construction is reached exactly when the retry status is not
200. -/
theorem c9_missing_claim_header_panics (jsonOf : String → Option Json)
    (id username password : String) (otp_claim : Option String)
    (env : LoginEnv)
    (h401 : env.resp1.status_code = 401)
    (hheader : env.resp1.headers.lookup "x-wealthsimple-otp" =
      some "required; method=app") :
    (env.resp2.status_code = 200 →
      env.resp2.headers.lookup "x-wealthsimple-otp-claim" = none →
      (login jsonOf id username password otp_claim env).1 =
        .panicMissingClaimHeader) ∧
    (∀ b, (login jsonOf id username password otp_claim env).1 =
        .authFailedAfterOtp b → env.resp2.status_code ≠ 200) ∧
    (env.resp2.status_code ≠ 200 →
      (login jsonOf id username password otp_claim env).1 =
        .authFailedAfterOtp env.resp2.body) := by
  have hcond : env.resp1.status_code = 401 ∧
      otpChallengeRequired env.resp1 = true :=
    ⟨h401, by simp [otpChallengeRequired, hheader]⟩
  refine ⟨?_, ?_, ?_⟩
  · intro h200 hnone
    simp only [login]
    rw [if_pos hcond, if_pos h200, hnone]
  · intro b hb
    intro h200
    simp only [login] at hb
    rw [if_pos hcond, if_pos h200] at hb
    split at hb
    · exact absurd hb (by simp)
    · split at hb <;> exact absurd hb (by simp)
  · intro h200
    simp only [login]
    rw [if_pos hcond, if_neg h200]

/-- Witness for C9 at a concrete environment. -/
theorem c9_missing_claim_header_panics_witness :
    ({ resp1 := { status_code := 401,
                  headers := [("x-wealthsimple-otp", "required; method=app")],
                  body := "" },
       otpCode := "123456",
       resp2 := { status_code := 200, headers := [], body := "b" } } :
        LoginEnv).resp2.headers.lookup "x-wealthsimple-otp-claim" = none ∧
    (login (fun _ => none) "dev" "u" "p" none
        { resp1 := { status_code := 401,
                     headers := [("x-wealthsimple-otp", "required; method=app")],
                     body := "" },
          otpCode := "123456",
          resp2 := { status_code := 200, headers := [], body := "b" } }).1 =
      .panicMissingClaimHeader :=
  ⟨by decide,
   (c9_missing_claim_header_panics (fun _ => none) "dev" "u" "p" none _
      rfl (by decide)).1 rfl (by decide)⟩

/-- C7: in a poll cycle, an amount string that fails `f64` parsing leaves
its entire gauge family untouched (so the entry of that account is neither
zeroed nor removed, and no entry of any other account is disturbed), a
parseable amount
of the same account is still written, and the per-account loop always
continues through the list (processing an account never aborts the cycle). -/
theorem c7_parse_failure_skips_gauge (g : Gauges) (a : Account)
    (pre post : List Account) :
    (rustParseF64 a.total_deposits.amount = none →
      (processAccount g a).deposited = g.deposited) ∧
    (rustParseF64 a.total_withdrawals.amount = none →
      (processAccount g a).withdrawn = g.withdrawn) ∧
    (rustParseF64 a.net_liquidation.amount = none →
      (processAccount g a).net_liquidation = g.net_liquidation) ∧
    (rustParseF64 a.gross_position.amount = none →
      (processAccount g a).gross_position = g.gross_position) ∧
    (∀ v, rustParseF64 a.total_deposits.amount = some v →
      (processAccount g a).deposited (labelValues a) = some v) ∧
    (∀ v, rustParseF64 a.total_withdrawals.amount = some v →
      (processAccount g a).withdrawn (labelValues a) = some v) ∧
    (∀ v, rustParseF64 a.net_liquidation.amount = some v →
      (processAccount g a).net_liquidation (labelValues a) = some v) ∧
    (∀ v, rustParseF64 a.gross_position.amount = some v →
      (processAccount g a).gross_position (labelValues a) = some v) ∧
    processAccounts g (pre ++ a :: post) =
      processAccounts (processAccount (processAccounts g pre) a) post := by
  rcases h1 : rustParseF64 a.total_deposits.amount with _ | v1 <;>
    rcases h2 : rustParseF64 a.total_withdrawals.amount with _ | v2 <;>
      rcases h3 : rustParseF64 a.net_liquidation.amount with _ | v3 <;>
        rcases h4 : rustParseF64 a.gross_position.amount with _ | v4 <;>
          refine ⟨?_, ?_, ?_, ?_, ?_, ?_, ?_, ?_, ?_⟩ <;>
            simp_all [processAccount, setGauge, processAccounts,
              List.foldl_append]

/-- Witness for C7 at a concrete account whose `total_deposits` amount fails
parsing while the other three amounts parse. -/
theorem c7_parse_failure_skips_gauge_witness :
    rustParseF64 "not a number" = none ∧
    rustParseF64 "0" = some (.finite 0 0) ∧
    (processAccount
        ⟨fun _ => some (.finite 7 0), fun _ => none, fun _ => none,
         fun _ => none⟩
        { object := "account", id := "A1", type_ := "investment",
          nickname := none, base_currency := .cad, status := .open_,
          owners := [],
          net_liquidation := ⟨"1050.25", .cad⟩,
          gross_position := ⟨"1050.25", .cad⟩,
          total_deposits := ⟨"not a number", .cad⟩,
          total_withdrawals := ⟨"0", .cad⟩,
          created_at := "2020-01-01T00:00:00Z",
          updated_at := "2020-01-01T00:00:00Z",
          withdrawn_earnings := ⟨"0", .cad⟩ }).deposited =
      (fun _ => some (.finite 7 0)) ∧
    (processAccount
        ⟨fun _ => some (.finite 7 0), fun _ => none, fun _ => none,
         fun _ => none⟩
        { object := "account", id := "A1", type_ := "investment",
          nickname := none, base_currency := .cad, status := .open_,
          owners := [],
          net_liquidation := ⟨"1050.25", .cad⟩,
          gross_position := ⟨"1050.25", .cad⟩,
          total_deposits := ⟨"not a number", .cad⟩,
          total_withdrawals := ⟨"0", .cad⟩,
          created_at := "2020-01-01T00:00:00Z",
          updated_at := "2020-01-01T00:00:00Z",
          withdrawn_earnings := ⟨"0", .cad⟩ }).withdrawn
        (labelValues
          { object := "account", id := "A1", type_ := "investment",
            nickname := none, base_currency := .cad, status := .open_,
            owners := [],
            net_liquidation := ⟨"1050.25", .cad⟩,
            gross_position := ⟨"1050.25", .cad⟩,
            total_deposits := ⟨"not a number", .cad⟩,
            total_withdrawals := ⟨"0", .cad⟩,
            created_at := "2020-01-01T00:00:00Z",
            updated_at := "2020-01-01T00:00:00Z",
            withdrawn_earnings := ⟨"0", .cad⟩ }) = some (.finite 0 0) := by
  refine ⟨by decide, by decide, ?_, ?_⟩
  · exact (c7_parse_failure_skips_gauge _ _ [] []).1 (by decide)
  · exact (c7_parse_failure_skips_gauge _ _ [] []).2.2.2.2.2.1 _ (by decide)

/-- Mapping `List.mapM` over `Option` fails when any element fails. -/
theorem mapM_eq_none_of_mem {α β : Type} (f : α → Option β) (l : List α)
    (a : α) (ha : a ∈ l) (hf : f a = none) : l.mapM f = none := by
  induction l with
  | nil => cases ha
  | cons x xs ih =>
    rw [List.mapM_cons]
    rcases List.mem_cons.mp ha with h | h
    · subst h
      rw [hf]
      rfl
    · cases hx : f x
      · rfl
      · rw [ih h]
        rfl

/-- C10 counterexample: an account object that omits the declared `nickname`
field (and nothing else) still deserializes, a response containing it still
deserializes, and the poll iteration processes it normally (updating gauges
and sleeping) instead of terminating. -/
theorem c10_counterexample :
    (deserializeAccount (fun _ => true)
      (.obj
        [("object", .str "account"), ("id", .str "A1"),
         ("type", .str "investment"),
         ("base_currency", .str "CAD"), ("status", .str "open"),
         ("owners", .arr [.obj [("client_id", .str "c1"),
                                ("ownership_type", .str "primary")]]),
         ("net_liquidation",
          .obj [("amount", .str "1050.25"), ("currency", .str "CAD")]),
         ("gross_position",
          .obj [("amount", .str "1050.25"), ("currency", .str "CAD")]),
         ("total_deposits",
          .obj [("amount", .str "1000.50"), ("currency", .str "CAD")]),
         ("total_withdrawals",
          .obj [("amount", .str "0"), ("currency", .str "CAD")]),
         ("withdrawn_earnings",
          .obj [("amount", .str "0"), ("currency", .str "CAD")]),
         ("created_at", .str "2020-01-01T00:00:00Z"),
         ("updated_at", .str "2020-01-01T00:00:00Z")])).isSome = true ∧
    (pollIteration
      (fun s =>
        if s = "ok" then
          some (.obj
            [("object", .str "accounts"), ("offset", .num 0),
             ("total_count", .num 1),
             ("results", .arr
               [.obj
                 [("object", .str "account"), ("id", .str "A1"),
                  ("type", .str "investment"),
                  ("base_currency", .str "CAD"), ("status", .str "open"),
                  ("owners", .arr [.obj [("client_id", .str "c1"),
                                         ("ownership_type", .str "primary")]]),
                  ("net_liquidation",
                   .obj [("amount", .str "1050.25"), ("currency", .str "CAD")]),
                  ("gross_position",
                   .obj [("amount", .str "1050.25"), ("currency", .str "CAD")]),
                  ("total_deposits",
                   .obj [("amount", .str "1000.50"), ("currency", .str "CAD")]),
                  ("total_withdrawals",
                   .obj [("amount", .str "0"), ("currency", .str "CAD")]),
                  ("withdrawn_earnings",
                   .obj [("amount", .str "0"), ("currency", .str "CAD")]),
                  ("created_at", .str "2020-01-01T00:00:00Z"),
                  ("updated_at", .str "2020-01-01T00:00:00Z")]])])
        else none)
      (fun _ => true) "dev" "u" "p" "Bearer t" none emptyGauges
      { accountsResp := { status_code := 200, headers := [], body := "ok" },
        loginEnv := { resp1 := { status_code := 0, headers := [], body := "" },
                      otpCode := "",
                      resp2 := { status_code := 0, headers := [],
                                 body := "" } } }).1 =
      [.accountsRequest "Bearer t", .sleepSeconds 300] := by
  exact ⟨by rfl, by rfl⟩

/-- C10 (amended): a 200 accounts response whose body omits or malforms any
required `Account` field — that is, any declared field whose value its serde
field deserializer rejects: absence, a wrong-typed value, a status outside
open/closed, a currency code outside CAD/USD/EUR/GBP whether in
`base_currency` or inside any of the five Amount fields, a date the external
parser rejects, an owner object missing its required fields — fails
deserialization of the entire response, and the resulting error terminates
the process.  Only the `Option`-typed `nickname` may be absent (or null),
deserializing as `None`.  The final conjuncts show the named malformation
shapes are indeed rejected by the corresponding field deserializers. -/
theorem c10_amended_strict_schema (dateOk : String → Bool)
    (fields : List (String × Json))
    (hbad :
      reqField jStr fields "object" = none ∨
      reqField jStr fields "id" = none ∨
      reqField jStr fields "type" = none ∨
      optStrField fields "nickname" = none ∨
      reqField deserializeCurrency fields "base_currency" = none ∨
      reqField deserializeStatus fields "status" = none ∨
      reqField (jArrWith deserializeOwner) fields "owners" = none ∨
      reqField deserializeAmount fields "net_liquidation" = none ∨
      reqField deserializeAmount fields "gross_position" = none ∨
      reqField deserializeAmount fields "total_deposits" = none ∨
      reqField deserializeAmount fields "total_withdrawals" = none ∨
      reqField deserializeAmount fields "withdrawn_earnings" = none ∨
      reqField (jDate dateOk) fields "created_at" = none ∨
      reqField (jDate dateOk) fields "updated_at" = none) :
    deserializeAccount dateOk (.obj fields) = none ∧
    (∀ rfields pre post,
      rfields.lookup "results" = some (.arr (pre ++ .obj fields :: post)) →
      deserializeAccountsResponse dateOk (.obj rfields) = none ∧
      ∀ (jsonOf : String → Option Json) id username password token claim2 g env,
        env.accountsResp.status_code = 200 →
        jsonOf env.accountsResp.body = some (.obj rfields) →
        pollIteration jsonOf dateOk id username password token claim2 g env =
          ([.accountsRequest token], .exitWith .accountsJsonError)) ∧
    (∀ s, s ≠ "open" → s ≠ "closed" → deserializeStatus (.str s) = none) ∧
    (∀ c, c ≠ "CAD" → c ≠ "USD" → c ≠ "EUR" → c ≠ "GBP" →
      deserializeCurrency (.str c) = none) ∧
    (∀ afields c, afields.lookup "currency" = some (.str c) →
      c ≠ "CAD" → c ≠ "USD" → c ≠ "EUR" → c ≠ "GBP" →
      deserializeAmount (.obj afields) = none) ∧
    (∀ s, dateOk s = false → jDate dateOk (.str s) = none) ∧
    (∀ ofields, ofields.lookup "client_id" = none →
      deserializeOwner (.obj ofields) = none) ∧
    (∀ os j, j ∈ os → deserializeOwner j = none →
      jArrWith deserializeOwner (.arr os) = none) := by
  have h1 : deserializeAccount dateOk (.obj fields) = none := by
    simp only [deserializeAccount]
    split
    · rfl
    · split
      · exfalso
        rcases hbad with h|h|h|h|h|h|h|h|h|h|h|h|h|h <;> simp_all
      · rfl
  refine ⟨h1, ?_, ?_, ?_, ?_, ?_, ?_, ?_⟩
  case refine_2 =>
    intro s hs1 hs2
    simp [deserializeStatus, hs1, hs2]
  case refine_3 =>
    intro c hc1 hc2 hc3 hc4
    simp [deserializeCurrency, hc1, hc2, hc3, hc4]
  case refine_4 =>
    intro afields c hc hc1 hc2 hc3 hc4
    simp only [deserializeAmount]
    split
    · rfl
    · split
      · exfalso
        simp_all [reqField, deserializeCurrency]
      · rfl
  case refine_5 =>
    intro s hs
    simp [jDate, hs]
  case refine_6 =>
    intro ofields ho
    simp only [deserializeOwner]
    split
    · rfl
    · split
      · rename_i hcid hot han
        simp only [reqField] at hcid
        rw [ho] at hcid
        simp at hcid
      · rfl
  case refine_7 =>
    intro os j hj hjnone
    simp only [jArrWith]
    exact mapM_eq_none_of_mem _ _ _ hj hjnone
  intro rfields pre post hres
  have hmap : (pre ++ Json.obj fields :: post).mapM
      (deserializeAccount dateOk) = none :=
    mapM_eq_none_of_mem _ _ _ (by simp) h1
  have h2 : deserializeAccountsResponse dateOk (.obj rfields) = none := by
    simp only [deserializeAccountsResponse]
    split
    · rfl
    · split
      · exfalso
        simp_all [reqField, jArrWith]
      · rfl
  refine ⟨h2, ?_⟩
  intro jsonOf id username password token claim2 g env h200 hbody
  have hn401 : ¬ env.accountsResp.status_code = 401 := by
    rw [h200]
    decide
  have hn200 : ¬ env.accountsResp.status_code ≠ 200 := by
    rw [h200]
    simp
  simp only [pollIteration]
  rw [if_neg hn401, if_neg hn200, hbody]
  simp [h2]

/-- Witness for the amended C10 at an account object whose fields are all
present but whose `status` value is the malformed string `pending`: the
account, the response around it, and the poll cycle all fail, and each named
malformation shape is rejected at a concrete input. -/
theorem c10_amended_strict_schema_witness :
    reqField deserializeStatus
      [("object", Json.str "account"), ("id", .str "A1"),
       ("type", .str "investment"), ("nickname", .null),
       ("base_currency", .str "CAD"), ("status", .str "pending"),
       ("owners", .arr [.obj [("client_id", .str "c1"),
                              ("ownership_type", .str "primary")]]),
       ("net_liquidation",
        .obj [("amount", .str "1"), ("currency", .str "CAD")]),
       ("gross_position",
        .obj [("amount", .str "1"), ("currency", .str "CAD")]),
       ("total_deposits",
        .obj [("amount", .str "1"), ("currency", .str "CAD")]),
       ("total_withdrawals",
        .obj [("amount", .str "1"), ("currency", .str "CAD")]),
       ("withdrawn_earnings",
        .obj [("amount", .str "1"), ("currency", .str "CAD")]),
       ("created_at", .str "2020-01-01T00:00:00Z"),
       ("updated_at", .str "2020-01-01T00:00:00Z")] "status" = none ∧
    deserializeAccount (fun s => s == "2020-01-01T00:00:00Z")
      (.obj
        [("object", .str "account"), ("id", .str "A1"),
         ("type", .str "investment"), ("nickname", .null),
         ("base_currency", .str "CAD"), ("status", .str "pending"),
         ("owners", .arr [.obj [("client_id", .str "c1"),
                                ("ownership_type", .str "primary")]]),
         ("net_liquidation",
          .obj [("amount", .str "1"), ("currency", .str "CAD")]),
         ("gross_position",
          .obj [("amount", .str "1"), ("currency", .str "CAD")]),
         ("total_deposits",
          .obj [("amount", .str "1"), ("currency", .str "CAD")]),
         ("total_withdrawals",
          .obj [("amount", .str "1"), ("currency", .str "CAD")]),
         ("withdrawn_earnings",
          .obj [("amount", .str "1"), ("currency", .str "CAD")]),
         ("created_at", .str "2020-01-01T00:00:00Z"),
         ("updated_at", .str "2020-01-01T00:00:00Z")]) = none ∧
    deserializeAccountsResponse (fun s => s == "2020-01-01T00:00:00Z")
      (.obj [("object", .str "accounts"), ("offset", .num 0),
             ("total_count", .num 1),
             ("results", .arr
               [.obj
                 [("object", .str "account"), ("id", .str "A1"),
                  ("type", .str "investment"), ("nickname", .null),
                  ("base_currency", .str "CAD"), ("status", .str "pending"),
                  ("owners", .arr [.obj [("client_id", .str "c1"),
                                         ("ownership_type", .str "primary")]]),
                  ("net_liquidation",
                   .obj [("amount", .str "1"), ("currency", .str "CAD")]),
                  ("gross_position",
                   .obj [("amount", .str "1"), ("currency", .str "CAD")]),
                  ("total_deposits",
                   .obj [("amount", .str "1"), ("currency", .str "CAD")]),
                  ("total_withdrawals",
                   .obj [("amount", .str "1"), ("currency", .str "CAD")]),
                  ("withdrawn_earnings",
                   .obj [("amount", .str "1"), ("currency", .str "CAD")]),
                  ("created_at", .str "2020-01-01T00:00:00Z"),
                  ("updated_at", .str "2020-01-01T00:00:00Z")]])]) = none ∧
    pollIteration
      (fun s =>
        if s = "ok" then
          some (.obj [("object", .str "accounts"), ("offset", .num 0),
                      ("total_count", .num 1),
                      ("results", .arr
                        [.obj
                          [("object", .str "account"), ("id", .str "A1"),
                           ("type", .str "investment"), ("nickname", .null),
                           ("base_currency", .str "CAD"),
                           ("status", .str "pending"),
                           ("owners", .arr [.obj [("client_id", .str "c1"),
                                                  ("ownership_type",
                                                   .str "primary")]]),
                           ("net_liquidation",
                            .obj [("amount", .str "1"),
                                  ("currency", .str "CAD")]),
                           ("gross_position",
                            .obj [("amount", .str "1"),
                                  ("currency", .str "CAD")]),
                           ("total_deposits",
                            .obj [("amount", .str "1"),
                                  ("currency", .str "CAD")]),
                           ("total_withdrawals",
                            .obj [("amount", .str "1"),
                                  ("currency", .str "CAD")]),
                           ("withdrawn_earnings",
                            .obj [("amount", .str "1"),
                                  ("currency", .str "CAD")]),
                           ("created_at", .str "2020-01-01T00:00:00Z"),
                           ("updated_at", .str "2020-01-01T00:00:00Z")]])])
        else none)
      (fun s => s == "2020-01-01T00:00:00Z") "dev" "u" "p" "Bearer t" none
      emptyGauges
      { accountsResp := { status_code := 200, headers := [], body := "ok" },
        loginEnv := { resp1 := { status_code := 0, headers := [], body := "" },
                      otpCode := "",
                      resp2 := { status_code := 0, headers := [],
                                 body := "" } } } =
      ([.accountsRequest "Bearer t"], .exitWith .accountsJsonError) ∧
    deserializeStatus (.str "pending") = none ∧
    deserializeCurrency (.str "JPY") = none ∧
    deserializeAmount
      (.obj [("amount", .str "1"), ("currency", .str "JPY")]) = none ∧
    jDate (fun s => s == "2020-01-01T00:00:00Z") (.str "nope") = none ∧
    deserializeOwner (.obj [("ownership_type", .str "primary")]) = none ∧
    jArrWith deserializeOwner
      (.arr [.obj [("ownership_type", .str "primary")]]) = none := by
  have h := c10_amended_strict_schema (fun s => s == "2020-01-01T00:00:00Z")
    [("object", Json.str "account"), ("id", .str "A1"),
     ("type", .str "investment"), ("nickname", .null),
     ("base_currency", .str "CAD"), ("status", .str "pending"),
     ("owners", .arr [.obj [("client_id", .str "c1"),
                            ("ownership_type", .str "primary")]]),
     ("net_liquidation",
      .obj [("amount", .str "1"), ("currency", .str "CAD")]),
     ("gross_position",
      .obj [("amount", .str "1"), ("currency", .str "CAD")]),
     ("total_deposits",
      .obj [("amount", .str "1"), ("currency", .str "CAD")]),
     ("total_withdrawals",
      .obj [("amount", .str "1"), ("currency", .str "CAD")]),
     ("withdrawn_earnings",
      .obj [("amount", .str "1"), ("currency", .str "CAD")]),
     ("created_at", .str "2020-01-01T00:00:00Z"),
     ("updated_at", .str "2020-01-01T00:00:00Z")]
    (Or.inr (Or.inr (Or.inr (Or.inr (Or.inr (Or.inl (by decide)))))))
  have hr := h.2.1 [("object", Json.str "accounts"), ("offset", Json.num 0),
                    ("total_count", Json.num 1),
                    ("results", Json.arr
                      [Json.obj
                        [("object", Json.str "account"), ("id", .str "A1"),
                         ("type", .str "investment"), ("nickname", .null),
                         ("base_currency", .str "CAD"),
                         ("status", .str "pending"),
                         ("owners", .arr [.obj [("client_id", .str "c1"),
                                                ("ownership_type",
                                                 .str "primary")]]),
                         ("net_liquidation",
                          .obj [("amount", .str "1"),
                                ("currency", .str "CAD")]),
                         ("gross_position",
                          .obj [("amount", .str "1"),
                                ("currency", .str "CAD")]),
                         ("total_deposits",
                          .obj [("amount", .str "1"),
                                ("currency", .str "CAD")]),
                         ("total_withdrawals",
                          .obj [("amount", .str "1"),
                                ("currency", .str "CAD")]),
                         ("withdrawn_earnings",
                          .obj [("amount", .str "1"),
                                ("currency", .str "CAD")]),
                         ("created_at", .str "2020-01-01T00:00:00Z"),
                         ("updated_at", .str "2020-01-01T00:00:00Z")]])]
    [] [] rfl
  refine ⟨by decide, h.1, hr.1,
    hr.2 _ "dev" "u" "p" "Bearer t" none emptyGauges _ rfl (by simp),
    h.2.2.1 "pending" (by decide) (by decide),
    h.2.2.2.1 "JPY" (by decide) (by decide) (by decide) (by decide),
    h.2.2.2.2.1 _ "JPY" rfl (by decide) (by decide) (by decide) (by decide),
    h.2.2.2.2.2.1 "nope" (by decide),
    h.2.2.2.2.2.2.1 _ rfl,
    h.2.2.2.2.2.2.2 _ (Json.obj [("ownership_type", .str "primary")])
      (by simp) (h.2.2.2.2.2.2.1 _ rfl)⟩

end WealthsimplePrometheus
